import Mathlib

/-!
Verification of the `form` package (flamingo.me/form) against its
natural-language specification.

The only implementation file available is
`domain/formdata/validator.go` (`DefaultFormDataValidatorImpl.Validate`);
it is embedded faithfully below.  The builder, pipeline executor,
decoder and encoder are not in the sources, so they are modelled from
the specification text; every such definition carries a doc comment
starting with `Modelled from the spec:`.
-/

/-- Embedding of Go's `context.Context` as far as this code observes it:
the only observable fact the spec talks about is whether the context has
been cancelled. -/
structure Context where
  cancelled : Bool
deriving DecidableEq, Repr

/-- Embedding of `*web.Request`: the core consumes the parsed form
values, a mapping of field name to an ordered sequence of string
values. -/
structure Request where
  values : List (String × List String)
deriving DecidableEq, Repr

/-- Embedding of `domain.ValidationInfo`: an aggregate of field-level
and struct-level (general) validation errors.  The `domain` package is
not in the sources; the shape follows the spec's
`ValidationInfo: {IsValid, FieldErrors, StructErrors}`. -/
structure ValidationInfo where
  fieldErrors : List String := []
  generalErrors : List String := []
deriving DecidableEq, Repr

/-- Embedding of Go's `interface{}` form data as far as the code
inspects it: the type assertion `formData.(map[string]string)`
distinguishes the default string-keyed map from any custom typed data
object.  A typed object is represented by a tag together with its
field values. -/
inductive FormData where
  | stringMap (m : List (String × String)) : FormData
  | typed (tag : String) (fields : List (String × List String)) : FormData
deriving DecidableEq, Repr

/-- Embedding of `domain.ValidatorProvider` through the one method this
code calls: `Validate(ctx, req, formData)` returning a
`domain.ValidationInfo` by value. -/
def ValidatorProvider : Type :=
  Context → Request → FormData → ValidationInfo

/-- Embedding of `DefaultFormDataValidatorImpl`, an empty Go struct. -/
structure DefaultFormDataValidatorImpl where
deriving DecidableEq, Repr

/-- Embedding of `DefaultFormDataValidatorImpl.Validate`
(`domain/formdata/validator.go:18-24`).  The Go signature returns
`(*domain.ValidationInfo, error)`; the pointer is modelled as
`Option ValidationInfo` (`none` = nil pointer) and the error as
`Option String` (`none` = nil error).

Go source:
```
if _, ok := formData.(map[string]string); ok {
    return &domain.ValidationInfo{}, nil
}
validationInfo := validatorProvider.Validate(ctx, req, formData)
return &validationInfo, nil
``` -/
def DefaultFormDataValidatorImpl.Validate (ctx : Context) (req : Request)
    (validatorProvider : ValidatorProvider) (formData : FormData) :
    Option ValidationInfo × Option String :=
  match formData with
  | .stringMap _ => (some {}, none)
  | _ => (some (validatorProvider ctx req formData), none)

/-- State-passing embedding of the same method, threading the receiver
and the `formData` argument explicitly so that absence of mutation is
provable: the Go body contains no assignment to the receiver or to
`formData`, so both are returned unchanged on every branch. -/
def DefaultFormDataValidatorImpl.ValidateSt (p : DefaultFormDataValidatorImpl)
    (ctx : Context) (req : Request) (validatorProvider : ValidatorProvider)
    (formData : FormData) :
    DefaultFormDataValidatorImpl × FormData × (Option ValidationInfo × Option String) :=
  match formData with
  | .stringMap _ => (p, formData, (some {}, none))
  | _ => (p, formData, (some (validatorProvider ctx req formData), none))

/-- C1: for every formData whose dynamic type is `map[string]string`,
`DefaultFormDataValidatorImpl.Validate` returns an empty
`ValidationInfo` and a nil error, and never invokes
`validatorProvider.Validate` on that call (the result does not depend
on the provider at all). -/
theorem validate_string_map_short_circuits (ctx : Context) (req : Request)
    (vp : ValidatorProvider) (m : List (String × String)) :
    DefaultFormDataValidatorImpl.Validate ctx req vp (.stringMap m) =
      (some ({} : ValidationInfo), none) ∧
    ∀ vp' : ValidatorProvider,
      DefaultFormDataValidatorImpl.Validate ctx req vp (.stringMap m) =
        DefaultFormDataValidatorImpl.Validate ctx req vp' (.stringMap m) := by
  exact ⟨rfl, fun _ => rfl⟩

/-- C2: for every context, request, validator provider and formData,
`DefaultFormDataValidatorImpl.Validate` returns a nil error. -/
theorem validate_error_always_nil (ctx : Context) (req : Request)
    (vp : ValidatorProvider) (formData : FormData) :
    (DefaultFormDataValidatorImpl.Validate ctx req vp formData).2 = none := by
  cases formData <;> rfl

/-- C3: for every formData whose dynamic type is not
`map[string]string`, `DefaultFormDataValidatorImpl.Validate` returns
exactly the `ValidationInfo` produced by
`validatorProvider.Validate(ctx, req, formData)` (a pointer to that
value, unmodified) together with a nil error. -/
theorem validate_delegates_to_provider (ctx : Context) (req : Request)
    (vp : ValidatorProvider) (formData : FormData)
    (h : ∀ m, formData ≠ .stringMap m) :
    DefaultFormDataValidatorImpl.Validate ctx req vp formData =
      (some (vp ctx req formData), none) := by
  cases formData with
  | stringMap m => exact absurd rfl (h m)
  | typed tag fields => rfl

/-- Witness for C3 at a concrete typed form data value. -/
theorem validate_delegates_to_provider_witness :
    DefaultFormDataValidatorImpl.Validate ⟨false⟩ ⟨[]⟩
        (fun _ _ _ => ⟨["e"], []⟩) (.typed "AddressFormData" []) =
      (some ⟨["e"], []⟩, none) :=
  validate_delegates_to_provider ⟨false⟩ ⟨[]⟩ (fun _ _ _ => ⟨["e"], []⟩)
    (.typed "AddressFormData" []) (fun _ h => FormData.noConfusion h)

/-- C9: on every input, `DefaultFormDataValidatorImpl.Validate` returns
a non-nil `*ValidationInfo`: on both branches the first component is
`some` of a `ValidationInfo` value. -/
theorem validate_info_never_nil (ctx : Context) (req : Request)
    (vp : ValidatorProvider) (formData : FormData) :
    (DefaultFormDataValidatorImpl.Validate ctx req vp formData).1.isSome = true := by
  cases formData <;> rfl

/-- C4 counterexample: an already-cancelled context passed to
`DefaultFormDataValidatorImpl.Validate` with the default string-keyed
map does not produce a context-cancellation error; the call returns a
successful empty validation result and a nil error.  The method body
never reads the context. -/
theorem validate_cancelled_context_counterexample :
    DefaultFormDataValidatorImpl.Validate ⟨true⟩ ⟨[]⟩
        (fun _ _ _ => ⟨[], []⟩) (.stringMap []) =
      (some ({} : ValidationInfo), none) := rfl

/-- C4 amended: `DefaultFormDataValidatorImpl.Validate` does not
observe context cancellation at all: its result is independent of the
context argument, and the returned error is nil even when the context
is already cancelled, so a cancelled context still yields a successful
validation result. -/
theorem validate_ignores_context_cancellation (ctx ctx' : Context)
    (req : Request) (vp : ValidatorProvider) (formData : FormData) :
    (∀ r d, vp ctx r d = vp ctx' r d) →
    DefaultFormDataValidatorImpl.Validate ctx req vp formData =
      DefaultFormDataValidatorImpl.Validate ctx' req vp formData ∧
    (DefaultFormDataValidatorImpl.Validate ⟨true⟩ req vp formData).2 = none := by
  intro hvp
  refine ⟨?_, ?_⟩
  · cases formData with
    | stringMap m => rfl
    | typed tag fields =>
        simp only [DefaultFormDataValidatorImpl.Validate, hvp]
  · cases formData <;> rfl

/-- Witness for the amended C4 at concrete inputs: a cancelled and an
uncancelled context give the same result, and the cancelled run's error
is nil. -/
theorem validate_ignores_context_cancellation_witness :
    DefaultFormDataValidatorImpl.Validate ⟨true⟩ ⟨[]⟩
        (fun _ _ _ => ⟨[], []⟩) (.typed "t" []) =
      DefaultFormDataValidatorImpl.Validate ⟨false⟩ ⟨[]⟩
        (fun _ _ _ => ⟨[], []⟩) (.typed "t" []) ∧
    (DefaultFormDataValidatorImpl.Validate ⟨true⟩ ⟨[]⟩
        (fun _ _ _ => ⟨[], []⟩) (.typed "t" [])).2 = none :=
  validate_ignores_context_cancellation ⟨true⟩ ⟨false⟩ ⟨[]⟩
    (fun _ _ _ => ⟨[], []⟩) (.typed "t" []) (fun _ _ => rfl)

/-- C10: the state-passing embedding shows `Validate` never mutates its
receiver or the `formData` argument (both come back unchanged), and the
call is deterministic as a two-run property: two runs whose validator
providers respond identically on the given arguments produce equal
results. -/
theorem validate_pure_and_deterministic (p : DefaultFormDataValidatorImpl)
    (ctx : Context) (req : Request) (vp vp' : ValidatorProvider)
    (formData : FormData) :
    (DefaultFormDataValidatorImpl.ValidateSt p ctx req vp formData).1 = p ∧
    (DefaultFormDataValidatorImpl.ValidateSt p ctx req vp formData).2.1 = formData ∧
    (vp ctx req formData = vp' ctx req formData →
      DefaultFormDataValidatorImpl.ValidateSt p ctx req vp formData =
        DefaultFormDataValidatorImpl.ValidateSt p ctx req vp' formData) := by
  refine ⟨?_, ?_, ?_⟩
  · cases formData <;> rfl
  · cases formData <;> rfl
  · intro hvp
    cases formData with
    | stringMap m => rfl
    | typed tag fields =>
        simp only [DefaultFormDataValidatorImpl.ValidateSt, hvp]

/-- Witness for C10 at concrete inputs. -/
theorem validate_pure_and_deterministic_witness :
    (DefaultFormDataValidatorImpl.ValidateSt ⟨⟩ ⟨false⟩ ⟨[]⟩
        (fun _ _ _ => ⟨[], []⟩) (.typed "t" [])).1 = ⟨⟩ ∧
    (DefaultFormDataValidatorImpl.ValidateSt ⟨⟩ ⟨false⟩ ⟨[]⟩
        (fun _ _ _ => ⟨[], []⟩) (.typed "t" [])).2.1 = .typed "t" [] ∧
    ((fun (_ : Context) (_ : Request) (_ : FormData) =>
        (⟨[], []⟩ : ValidationInfo)) ⟨false⟩ ⟨[]⟩ (.typed "t" []) =
      (fun (_ : Context) (_ : Request) (_ : FormData) =>
        (⟨[], []⟩ : ValidationInfo)) ⟨false⟩ ⟨[]⟩ (.typed "t" []) →
      DefaultFormDataValidatorImpl.ValidateSt ⟨⟩ ⟨false⟩ ⟨[]⟩
          (fun _ _ _ => ⟨[], []⟩) (.typed "t" []) =
        DefaultFormDataValidatorImpl.ValidateSt ⟨⟩ ⟨false⟩ ⟨[]⟩
          (fun _ _ _ => ⟨[], []⟩) (.typed "t" [])) :=
  validate_pure_and_deterministic ⟨⟩ ⟨false⟩ ⟨[]⟩
    (fun _ _ _ => ⟨[], []⟩) (fun _ _ _ => ⟨[], []⟩) (.typed "t" [])

/-- Modelled from the spec: the FormDataProvider role (source not under
the available files) — `GetFormData(ctx, req)` returns a default data
object or an error. -/
def FormDataProvider : Type :=
  Context → Request → Except String FormData

/-- Modelled from the spec: the FormDataDecoder role —
`Decode(ctx, req, values, formData)` populates a data object from the
parsed request values or fails with an error. -/
def FormDataDecoder : Type :=
  Context → Request → List (String × List String) → FormData →
    Except String FormData

/-- Modelled from the spec: the FormDataValidator role —
`Validate(ctx, req, validatorProvider, formData)` returning
`(*ValidationInfo, error)`, with the same shape as the embedded default
implementation. -/
def FormDataValidator : Type :=
  Context → Request → ValidatorProvider → FormData →
    Option ValidationInfo × Option String

/-- Modelled from the spec: a FormExtension implements any subset of
the three service roles. -/
structure FormExtension where
  provider : Option FormDataProvider := none
  decoder : Option FormDataDecoder := none
  validator : Option FormDataValidator := none

/-- Modelled from the spec: the process-wide named-service registry, an
explicit mapping of name to instance for each role, populated at
process start. -/
structure NamedServiceRegistry where
  providers : List (String × FormDataProvider) := []
  decoders : List (String × FormDataDecoder) := []
  validators : List (String × FormDataValidator) := []
  extensionEntries : List (String × FormExtension) := []

/-- Modelled from the spec: configuration-time errors; an unknown named
service causes build failure, not silent default fallback. -/
inductive BuilderError where
  | unknownServiceName (name : String) : BuilderError
deriving DecidableEq, Repr

/-- Modelled from the spec: FormHandlerBuilder accumulates stage
selections — at most one explicit binding per role plus an append-only
extensions list — against a fixed registry. -/
structure FormHandlerBuilder where
  registry : NamedServiceRegistry
  formDataProvider : Option FormDataProvider := none
  formDataDecoder : Option FormDataDecoder := none
  formDataValidator : Option FormDataValidator := none
  formExtensions : List FormExtension := []

/-- Modelled from the spec: `SetFormDataProvider` sets the explicit
provider binding; calling it twice overwrites (last write wins). -/
def FormHandlerBuilder.SetFormDataProvider (b : FormHandlerBuilder)
    (p : FormDataProvider) : FormHandlerBuilder :=
  { b with formDataProvider := some p }

/-- Modelled from the spec: `SetFormDataDecoder`, last write wins. -/
def FormHandlerBuilder.SetFormDataDecoder (b : FormHandlerBuilder)
    (d : FormDataDecoder) : FormHandlerBuilder :=
  { b with formDataDecoder := some d }

/-- Modelled from the spec: `SetFormDataValidator`, last write wins. -/
def FormHandlerBuilder.SetFormDataValidator (b : FormHandlerBuilder)
    (v : FormDataValidator) : FormHandlerBuilder :=
  { b with formDataValidator := some v }

/-- Modelled from the spec: `AddFormExtension` appends an extension. -/
def FormHandlerBuilder.AddFormExtension (b : FormHandlerBuilder)
    (e : FormExtension) : FormHandlerBuilder :=
  { b with formExtensions := b.formExtensions ++ [e] }

/-- Modelled from the spec: `SetNamedFormDataProvider` resolves the
name against the registry; fails with `UnknownServiceName` if absent. -/
def FormHandlerBuilder.SetNamedFormDataProvider (b : FormHandlerBuilder)
    (name : String) : Except BuilderError FormHandlerBuilder :=
  match b.registry.providers.lookup name with
  | none => .error (.unknownServiceName name)
  | some p => .ok (b.SetFormDataProvider p)

/-- Modelled from the spec: `SetNamedFormDataDecoder`. -/
def FormHandlerBuilder.SetNamedFormDataDecoder (b : FormHandlerBuilder)
    (name : String) : Except BuilderError FormHandlerBuilder :=
  match b.registry.decoders.lookup name with
  | none => .error (.unknownServiceName name)
  | some d => .ok (b.SetFormDataDecoder d)

/-- Modelled from the spec: `SetNamedFormDataValidator`. -/
def FormHandlerBuilder.SetNamedFormDataValidator (b : FormHandlerBuilder)
    (name : String) : Except BuilderError FormHandlerBuilder :=
  match b.registry.validators.lookup name with
  | none => .error (.unknownServiceName name)
  | some v => .ok (b.SetFormDataValidator v)

/-- Modelled from the spec: `AddNamedFormExtension`. -/
def FormHandlerBuilder.AddNamedFormExtension (b : FormHandlerBuilder)
    (name : String) : Except BuilderError FormHandlerBuilder :=
  match b.registry.extensionEntries.lookup name with
  | none => .error (.unknownServiceName name)
  | some e => .ok (b.AddFormExtension e)

/-- Modelled from the spec: the default provider returns the empty
string-keyed map. -/
def defaultFormDataProvider : FormDataProvider :=
  fun _ _ => .ok (.stringMap [])

/-- Modelled from the spec: the default decoder produces a string-keyed
mapping of the raw request values. -/
def defaultFormDataDecoder : FormDataDecoder :=
  fun _ _ values _ =>
    .ok (.stringMap (values.map (fun p => (p.1, p.2.headD ""))))

/-- The default validator role is the embedded
`DefaultFormDataValidatorImpl.Validate` from the sources. -/
def defaultFormDataValidator : FormDataValidator :=
  fun ctx req vp formData =>
    DefaultFormDataValidatorImpl.Validate ctx req vp formData

/-- Modelled from the spec: the immutable FormHandler produced by
`Build()`, with every role bound (defaults filled in for unset
roles). -/
structure FormHandler where
  formDataProvider : FormDataProvider
  formDataDecoder : FormDataDecoder
  formDataValidator : FormDataValidator
  formExtensions : List FormExtension

/-- Modelled from the spec: `Build()` snapshots the builder; any role
left unset uses the package-default implementation for that role. -/
def FormHandlerBuilder.Build (b : FormHandlerBuilder) : FormHandler :=
  { formDataProvider := b.formDataProvider.getD defaultFormDataProvider
    formDataDecoder := b.formDataDecoder.getD defaultFormDataDecoder
    formDataValidator := b.formDataValidator.getD defaultFormDataValidator
    formExtensions := b.formExtensions }

/-- Modelled from the spec: the Form result entity — decoded data, a
submission flag and the aggregated validation result. -/
structure Form where
  data : FormData
  isSubmitted : Bool
  validationInfo : ValidationInfo
deriving DecidableEq, Repr

/-- Modelled from the spec: `HandleUnsubmittedForm` runs the Provide
phase only — it invokes the provider's `GetFormData`, stores the result
as the Form's data and marks the Form unsubmitted; no decoding or
validation is performed on this path. -/
def FormHandler.HandleUnsubmittedForm (h : FormHandler) (ctx : Context)
    (req : Request) : Except String Form :=
  match h.formDataProvider ctx req with
  | .error e => .error e
  | .ok d => .ok { data := d, isSubmitted := false, validationInfo := {} }

/-- Number of findings carried by a ValidationInfo: field-level plus
struct-level errors. -/
def ValidationInfo.findings (v : ValidationInfo) : Nat :=
  v.fieldErrors.length + v.generalErrors.length

/-- Modelled from the spec: aggregation of ValidationInfo results —
errors accumulate, unioned across the main service and all
extensions. -/
def aggregateValidationInfos (infos : List ValidationInfo) : ValidationInfo :=
  { fieldErrors := (infos.map (fun i => i.fieldErrors)).flatten
    generalErrors := (infos.map (fun i => i.generalErrors)).flatten }

/-- Modelled from the spec: the Validate phase runs the configured
validator plus every attached extension that implements the validator
role against the decoded data; this collects the individual
ValidationInfo results in order (a nil result pointer contributes no
findings). -/
def FormHandler.collectValidationInfos (h : FormHandler) (ctx : Context)
    (req : Request) (vp : ValidatorProvider) (data : FormData) :
    List ValidationInfo :=
  ((h.formDataValidator ctx req vp data).1.getD {}) ::
    h.formExtensions.filterMap
      (fun e => e.validator.map (fun v => (v ctx req vp data).1.getD {}))

/-- Modelled from the spec: the Form's validation result aggregates all
collected ValidationInfo results — no first-match short-circuit. -/
def FormHandler.runValidation (h : FormHandler) (ctx : Context)
    (req : Request) (vp : ValidatorProvider) (data : FormData) :
    ValidationInfo :=
  aggregateValidationInfos (h.collectValidationInfos ctx req vp data)

/-- Modelled from the spec: a custom form data type declares a set of
form fields (the struct's `form:"..."` tag names). -/
structure FormDataType where
  fields : List String
deriving DecidableEq, Repr

/-- Modelled from the spec: the default decoder populates a data object
from the request values — each declared field receives the ordered
sequence of submitted values under its form name; a field absent from
the request decodes to the empty sequence. -/
def decodeFormValues (dt : FormDataType)
    (values : List (String × List String)) : String → List String :=
  fun f => if f ∈ dt.fields then (values.lookup f).getD [] else []

/-- Modelled from the spec: the encoder serializes a previously decoded
data object back into request-parameter form, keyed and named
identically to how the decoder produced it. -/
def encodeFormData (dt : FormDataType) (obj : String → List String) :
    List (String × List String) :=
  dt.fields.map (fun f => (f, obj f))

/-- Looking up a declared field in the association list built by mapping
a function over the field list recovers that field's entry. -/
theorem lookup_map_pair (obj : String → List String) (f : String) :
    ∀ fields : List String, f ∈ fields →
      (fields.map (fun g => (g, obj g))).lookup f = some (obj f) := by
  intro fields hmem
  induction fields with
  | nil => cases hmem
  | cons g t ih =>
      by_cases hfg : f = g
      · subst hfg
        simp [List.lookup]
      · have ht : f ∈ t := by
          cases hmem with
          | head => exact absurd rfl hfg
          | tail _ hh => exact hh
        have hbeq : (f == g) = false := beq_eq_false_iff_ne.mpr hfg
        simp [List.lookup, hbeq, ih ht]

/-- Aggregation preserves the total finding count: the findings of the
aggregate equal the sum of the findings of the parts. -/
theorem aggregate_findings_eq_sum (infos : List ValidationInfo) :
    (aggregateValidationInfos infos).findings =
      (infos.map ValidationInfo.findings).sum := by
  induction infos with
  | nil => rfl
  | cons i t ih =>
      simp only [aggregateValidationInfos, ValidationInfo.findings,
        List.map_cons, List.flatten_cons, List.length_append,
        List.sum_cons] at *
      omega

/-- C5: for every role, calling the builder's setter twice and then
`Build()` yields a handler whose binding for that role is the second
one only; and calling a named setter with a name absent from the global
registry fails with `UnknownServiceName` before `Build()` completes. -/
theorem builder_override_and_unknown_name (b : FormHandlerBuilder)
    (p₁ p₂ : FormDataProvider) (d₁ d₂ : FormDataDecoder)
    (v₁ v₂ : FormDataValidator) (name : String)
    (hp : b.registry.providers.lookup name = none)
    (hd : b.registry.decoders.lookup name = none)
    (hv : b.registry.validators.lookup name = none)
    (he : b.registry.extensionEntries.lookup name = none) :
    ((b.SetFormDataProvider p₁).SetFormDataProvider p₂).Build.formDataProvider = p₂ ∧
    ((b.SetFormDataDecoder d₁).SetFormDataDecoder d₂).Build.formDataDecoder = d₂ ∧
    ((b.SetFormDataValidator v₁).SetFormDataValidator v₂).Build.formDataValidator = v₂ ∧
    b.SetNamedFormDataProvider name = .error (.unknownServiceName name) ∧
    b.SetNamedFormDataDecoder name = .error (.unknownServiceName name) ∧
    b.SetNamedFormDataValidator name = .error (.unknownServiceName name) ∧
    b.AddNamedFormExtension name = .error (.unknownServiceName name) := by
  refine ⟨rfl, rfl, rfl, ?_, ?_, ?_, ?_⟩
  · simp [FormHandlerBuilder.SetNamedFormDataProvider, hp]
  · simp [FormHandlerBuilder.SetNamedFormDataDecoder, hd]
  · simp [FormHandlerBuilder.SetNamedFormDataValidator, hv]
  · simp [FormHandlerBuilder.AddNamedFormExtension, he]

/-- Witness for C5 at a concrete builder over an empty registry. -/
theorem builder_override_and_unknown_name_witness :
    (((({ registry := {} } : FormHandlerBuilder).SetFormDataProvider
          (fun _ _ => .error "p1")).SetFormDataProvider
          (fun _ _ => .ok (.stringMap []))).Build.formDataProvider =
        fun _ _ => .ok (.stringMap [])) ∧
    (((({ registry := {} } : FormHandlerBuilder).SetFormDataDecoder
          (fun _ _ _ _ => .error "d1")).SetFormDataDecoder
          (fun _ _ _ fd => .ok fd)).Build.formDataDecoder =
        fun _ _ _ fd => .ok fd) ∧
    (((({ registry := {} } : FormHandlerBuilder).SetFormDataValidator
          (fun _ _ _ _ => (none, some "v1"))).SetFormDataValidator
          (fun _ _ _ _ => (some {}, none))).Build.formDataValidator =
        fun _ _ _ _ => (some {}, none)) ∧
    ({ registry := {} } : FormHandlerBuilder).SetNamedFormDataProvider "missing" =
      .error (.unknownServiceName "missing") ∧
    ({ registry := {} } : FormHandlerBuilder).SetNamedFormDataDecoder "missing" =
      .error (.unknownServiceName "missing") ∧
    ({ registry := {} } : FormHandlerBuilder).SetNamedFormDataValidator "missing" =
      .error (.unknownServiceName "missing") ∧
    ({ registry := {} } : FormHandlerBuilder).AddNamedFormExtension "missing" =
      .error (.unknownServiceName "missing") :=
  builder_override_and_unknown_name { registry := {} }
    (fun _ _ => .error "p1") (fun _ _ => .ok (.stringMap []))
    (fun _ _ _ _ => .error "d1") (fun _ _ _ fd => .ok fd)
    (fun _ _ _ _ => (none, some "v1")) (fun _ _ _ _ => (some {}, none))
    "missing" rfl rfl rfl rfl

/-- C6: the Form's aggregated validation result contains exactly as
many findings as the main configured validator and all attached
validator-role extensions produced together — no finding is dropped
and no validator short-circuits the others. -/
theorem validation_aggregation_exact_count (h : FormHandler)
    (ctx : Context) (req : Request) (vp : ValidatorProvider)
    (data : FormData) :
    (h.runValidation ctx req vp data).findings =
      ((h.collectValidationInfos ctx req vp data).map
        ValidationInfo.findings).sum :=
  aggregate_findings_eq_sum _

/-- C7: for every unsubmitted request handled by a handler built with
no custom provider configured, the returned Form carries the empty
string-keyed mapping and `isSubmitted = false`; since this holds for
every builder regardless of its decoder, validator and extensions, no
decoding or validation takes part in the result. -/
theorem handle_unsubmitted_default_provider (b : FormHandlerBuilder)
    (ctx : Context) (req : Request) (hb : b.formDataProvider = none) :
    b.Build.HandleUnsubmittedForm ctx req =
      .ok { data := .stringMap [], isSubmitted := false, validationInfo := {} } := by
  simp [FormHandlerBuilder.Build, FormHandler.HandleUnsubmittedForm, hb,
    defaultFormDataProvider]

/-- Witness for C7 at a concrete all-default builder and request. -/
theorem handle_unsubmitted_default_provider_witness :
    ({ registry := {} } : FormHandlerBuilder).Build.HandleUnsubmittedForm
        ⟨false⟩ ⟨[("firstname", ["Awesome"])]⟩ =
      .ok { data := .stringMap [], isSubmitted := false, validationInfo := {} } :=
  handle_unsubmitted_default_provider { registry := {} } ⟨false⟩
    ⟨[("firstname", ["Awesome"])]⟩ rfl

/-- C8: decode-then-encode round-trips — for every field declared in
the data type, encoding the data object produced by decoding the
submitted values reproduces exactly the originally submitted value
sequence for that field (exact equality, hence in particular
equivalence up to ordering). -/
theorem decode_encode_round_trip (dt : FormDataType)
    (values : List (String × List String)) (f : String) (vs : List String)
    (hf : f ∈ dt.fields) (hv : values.lookup f = some vs) :
    (encodeFormData dt (decodeFormValues dt values)).lookup f = some vs := by
  unfold encodeFormData
  rw [lookup_map_pair (decodeFormValues dt values) f dt.fields hf]
  simp [decodeFormValues, hf, hv]

/-- Witness for C8 at a concrete data type and submitted values. -/
theorem decode_encode_round_trip_witness :
    (encodeFormData ⟨["firstname"]⟩
        (decodeFormValues ⟨["firstname"]⟩
          [("firstname", ["Awesome"])])).lookup "firstname" =
      some ["Awesome"] :=
  decode_encode_round_trip ⟨["firstname"]⟩ [("firstname", ["Awesome"])]
    "firstname" ["Awesome"] (by simp) (by simp [List.lookup])
